import Mathlib

/-!
Shallow embedding of the vhost-user-rpmb backend (stsquad/virtio-rpmb).

Source files embedded:
* `src/rpmb.rs`     — backing store: flash image capacity and guarded key state
* `src/vhu_rpmb.rs` — protocol engine: frame type, request dispatcher,
  queue processing, event handling

Machine integers (`u8`, `u16`, `u32`, `u64`) are modelled as `Nat`; no
arithmetic in the embedded code can overflow at the values involved
(capacities are at most 128, byte counts at most 512 per frame).
Guest memory is modelled at frame granularity: a total map from addresses
to 512-byte frames, with `read_obj` a lookup and `write_obj` a pointwise
update.  Rust panics (out-of-bounds indexing) are modelled by an explicit
`panic` constructor in the result types, distinct from the `Error` values
the code returns.
-/

/-! ## src/rpmb.rs — backing store -/

def KB : Nat := 1024

def UNIT_128KB : Nat := KB * 128

def MAX_RPMB_SIZE : Nat := UNIT_128KB * 128

def RPMB_KEY_MAC_SIZE : Nat := 32

def RPMB_BLOCK_SIZE : Nat := 256

/-- `enum Key { Empty, Programmed(ArrayVec<u8, 32>) }` -/
inductive Key where
  | Empty : Key
  | Programmed (key : List Nat) : Key
deriving DecidableEq, Repr

/-- `enum KeyError { ProgramFailed }` -/
inductive KeyError where
  | ProgramFailed : KeyError
deriving DecidableEq, Repr

/-- `struct RpmbMutableState { write_count: u32, read_count: u32, key: Key }` -/
structure RpmbMutableState where
  write_count : Nat
  read_count : Nat
  key : Key
deriving DecidableEq, Repr

/-- `RpmbMutableState::new()` -/
def RpmbMutableState.new : RpmbMutableState :=
  { write_count := 0, read_count := 0, key := Key.Empty }

/-- `RpmbMutableState::program_key`: succeeds only from the `Empty` state;
otherwise fails and leaves the state unchanged.  Returned together with the
post-state (Rust mutates through `&mut self`). -/
def RpmbMutableState.program_key (s : RpmbMutableState) (key : List Nat) :
    Except KeyError Unit × RpmbMutableState :=
  match s.key with
  | Key.Empty => (Except.ok (), { s with key := Key.Programmed key })
  | Key.Programmed _ => (Except.error KeyError.ProgramFailed, s)

/-- Open-time errors of `RpmbBackend::new` (an `io::Error` with
`ErrorKind::InvalidData` when the capacity does not fit in a `u8`). -/
inductive OpenError where
  | InvalidData : OpenError
deriving DecidableEq, Repr

/-- `struct RpmbBackend { image, mmap, capacity: u8, state: RwLock<..> }`.
The file handle and the mapping itself carry no state the claims touch;
the model keeps the capacity and the guarded mutable state. -/
structure RpmbBackend where
  capacity : Nat
  state : RpmbMutableState
deriving DecidableEq, Repr

/-- `RpmbBackend::new`, abstracted over the backing file length `len`
(`metadata.len()`): clamp the length to `MAX_RPMB_SIZE`, compute
`capacity = len / UNIT_128KB`, fail if it does not fit in a `u8`. -/
def RpmbBackend.new (len : Nat) : Except OpenError RpmbBackend :=
  let len2 := if len > MAX_RPMB_SIZE then MAX_RPMB_SIZE else len
  if len2 / UNIT_128KB > 255 then
    Except.error OpenError.InvalidData
  else
    Except.ok { capacity := len2 / UNIT_128KB, state := RpmbMutableState.new }

/-- `RpmbBackend::get_capacity` -/
def RpmbBackend.get_capacity (b : RpmbBackend) : Nat :=
  b.capacity

/-- `RpmbBackend::program_key`: takes the write lock and delegates to the
mutable state. -/
def RpmbBackend.program_key (b : RpmbBackend) (key : List Nat) :
    Except KeyError Unit × RpmbBackend :=
  let r := b.state.program_key key
  (r.1, { b with state := r.2 })

/-! ## src/vhu_rpmb.rs — frame type and request codes -/

def VIRTIO_RPMB_REQ_PROGRAM_KEY : Nat := 0x0001

def VIRTIO_RPMB_REQ_RESULT_READ : Nat := 0x0005

def VIRTIO_RPMB_RESP_PROGRAM_KEY : Nat := 0x0100

def VIRTIO_RPMB_RES_OK : Nat := 0x0000

def VIRTIO_RPMB_RES_GENERAL_FAILURE : Nat := 0x0001

def VIRTIO_RPMB_RES_WRITE_FAILURE : Nat := 0x0005

/-- `struct VirtIORPMBFrame` — the fixed 512-byte wire record.  Byte-array
fields are byte lists; the big-endian scalar fields are carried as their
native values (`BeNN::to_native`). -/
structure VirtIORPMBFrame where
  stuff : List Nat
  key_mac : List Nat
  data : List Nat
  nonce : List Nat
  write_counter : Nat
  address : Nat
  block_count : Nat
  result : Nat
  req_resp : Nat
deriving DecidableEq, Repr

/-- `size_of::<VirtIORPMBFrame>()` = 196+32+256+16+4+2+2+2+2 = 512. -/
def frameSize : Nat :=
  196 + RPMB_KEY_MAC_SIZE + RPMB_BLOCK_SIZE + 16 + 4 + 2 + 2 + 2 + 2

/-- `VirtIORPMBFrame::default()` — all fields zero. -/
def VirtIORPMBFrame.zero : VirtIORPMBFrame :=
  { stuff := List.replicate 196 0
    key_mac := List.replicate RPMB_KEY_MAC_SIZE 0
    data := List.replicate RPMB_BLOCK_SIZE 0
    nonce := List.replicate 16 0
    write_counter := 0
    address := 0
    block_count := 0
    result := 0
    req_resp := 0 }

/-- `VirtIORPMBFrame::result(response, result)` — the result-frame builder:
every field zero except `result` and `req_resp`.  (Named `mk_result` here
because the structure's own `result` field projection takes the source
name.) -/
def VirtIORPMBFrame.mk_result (response result : Nat) : VirtIORPMBFrame :=
  { VirtIORPMBFrame.zero with result := result, req_resp := response }

/-- `enum RequestResponse` — dispatcher outcome / pending-slot contents. -/
inductive RequestResponse where
  | NoResponse : RequestResponse
  | PendingResponse (req_resp : Nat) (result : Nat) : RequestResponse
  | Response (frame : VirtIORPMBFrame) : RequestResponse
deriving DecidableEq, Repr

/-- `enum Error` of `vhu_rpmb.rs`. -/
inductive Error where
  | HandleEventNotEpollIn : Error
  | HandleEventUnknownEvent : Error
  | UnexpectedWriteOnlyDescriptor : Error
  | UnexpectedReadDescriptor : Error
  | UnexpectedDescriptorCount : Error
  | UnexpectedDescriptorSize : Error
  | DescriptorNotFound : Error
  | DescriptorReadFailed : Error
  | DescriptorWriteFailed : Error
  | DescriptorSendFailed : Error
deriving DecidableEq, Repr

/-- `VhostUserRpmb::program_key` — the REQ_PROGRAM_KEY handler.  It reads
`self.backend` through the lock, so the model passes the backend state
explicitly and returns its successor. -/
def VhostUserRpmb.program_key (backend : RpmbBackend) (frame : VirtIORPMBFrame) :
    RequestResponse × RpmbBackend :=
  if frame.block_count ≠ 1 then
    (RequestResponse.PendingResponse VIRTIO_RPMB_RESP_PROGRAM_KEY
      VIRTIO_RPMB_RES_GENERAL_FAILURE, backend)
  else
    match backend.program_key frame.key_mac with
    | (Except.ok _, b2) =>
        (RequestResponse.PendingResponse VIRTIO_RPMB_RESP_PROGRAM_KEY
          VIRTIO_RPMB_RES_OK, b2)
    | (Except.error _, b2) =>
        (RequestResponse.PendingResponse VIRTIO_RPMB_RESP_PROGRAM_KEY
          VIRTIO_RPMB_RES_WRITE_FAILURE, b2)

/-! ## src/vhu_rpmb.rs — descriptor chains, guest memory, queue processing -/

/-- Guest memory at frame granularity: `read_obj::<VirtIORPMBFrame>(addr)`
is `gm addr`; `write_obj` is a pointwise update. -/
def GuestMemory : Type := Nat → VirtIORPMBFrame

/-- `mem.write_obj::<VirtIORPMBFrame>(frame, addr)` -/
def write_obj (gm : GuestMemory) (frame : VirtIORPMBFrame) (addr : Nat) :
    GuestMemory :=
  fun a => if a = addr then frame else gm a

/-- One virtqueue descriptor as `process_queue` consumes it: an address,
a length, and its direction (`is_write_only`). -/
structure Descriptor where
  addr : Nat
  len : Nat
  write_only : Bool
deriving DecidableEq, Repr

/-- One descriptor chain: the head index used for `add_used` and the
ordered descriptor list the chain iterator yields. -/
structure DescChain where
  head_index : Nat
  buffers : List Descriptor
deriving DecidableEq, Repr

/-- The observable state threaded through `process_queue`: the backing
store (mutated through the lock), guest memory, the `add_used` log
`(head_index, consumed)` in call order, and the number of
`signal_used_queue` calls made. -/
structure QState where
  backend : RpmbBackend
  mem : GuestMemory
  used : List (Nat × Nat)
  signals : Nat

/-- Result of the inner per-readable-buffer loop of `process_queue`
(lines 276–351): on success the updated backend, memory, pending slot and
accumulated `consumed` count; `panic` models the out-of-bounds
`writeable[0]` indexing when a `Response` is produced with no writable
descriptor. -/
inductive FramesResult where
  | ok (backend : RpmbBackend) (mem : GuestMemory)
      (pending : RequestResponse) (consumed : Nat) : FramesResult
  | error (e : Error) (backend : RpmbBackend) (mem : GuestMemory) : FramesResult
  | panic (backend : RpmbBackend) (mem : GuestMemory) : FramesResult

/-- The `for b in &readable` loop of `process_queue`: check each readable
buffer is frame-sized, read the frame, dispatch on `req_resp`
(REQ_PROGRAM_KEY → handler, REQ_RESULT_READ → consume the pending slot,
anything else → nothing), then either write a `Response` frame to
`writeable[0]` (512 bytes consumed; panic when `writeable` is empty),
store a `PendingResponse` in the pending slot (0 bytes), or do nothing
(0 bytes). -/
def process_frames (writeable : List Descriptor) (backend : RpmbBackend)
    (gm : GuestMemory) (pending : RequestResponse) (consumed : Nat) :
    List Descriptor → FramesResult
  | [] => FramesResult.ok backend gm pending consumed
  | b :: rest =>
    if b.len ≠ frameSize then
      FramesResult.error Error.UnexpectedDescriptorSize backend gm
    else
      let frame := gm b.addr
      let req_resp := frame.req_resp
      let step : RequestResponse × RequestResponse × RpmbBackend :=
        if req_resp = VIRTIO_RPMB_REQ_PROGRAM_KEY then
          let pk := VhostUserRpmb.program_key backend frame
          (pk.1, pending, pk.2)
        else if req_resp = VIRTIO_RPMB_REQ_RESULT_READ then
          match pending with
          | RequestResponse.PendingResponse r c =>
              (RequestResponse.Response (VirtIORPMBFrame.mk_result r c),
               RequestResponse.NoResponse, backend)
          | _ => (RequestResponse.NoResponse, pending, backend)
        else
          (RequestResponse.NoResponse, pending, backend)
      match step with
      | (RequestResponse.Response fr, pending2, backend2) =>
        match writeable with
        | [] => FramesResult.panic backend2 gm
        | w :: _ =>
          process_frames writeable backend2 (write_obj gm fr w.addr) pending2
            (consumed + frameSize) rest
      | (RequestResponse.PendingResponse r c, _, backend2) =>
        process_frames writeable backend2 gm
          (RequestResponse.PendingResponse r c) (consumed + 0) rest
      | (RequestResponse.NoResponse, pending2, backend2) =>
        process_frames writeable backend2 gm pending2 (consumed + 0) rest

/-- Result of `process_queue`: `Ok(bool)`, an `Error`, or a panic. -/
inductive PQResult where
  | ok (more : Bool) (s : QState) : PQResult
  | error (e : Error) (s : QState) : PQResult
  | panic (s : QState) : PQResult

/-- The `for desc_chain in requests` loop of `process_queue`
(lines 263–366): per chain, require at least 2 descriptors, partition by
direction, process the readable frames, log `add_used(head_index,
consumed)` and call `signal_used_queue` — inside the loop, hence once per
chain.  The `pending` slot is threaded across chains of one invocation. -/
def process_chains (pending : RequestResponse) (s : QState) :
    List DescChain → PQResult
  | [] => PQResult.ok true s
  | dc :: rest =>
    if dc.buffers.length < 2 then
      PQResult.error Error.UnexpectedDescriptorCount s
    else
      let part := dc.buffers.partition (fun b => b.write_only)
      match process_frames part.1 s.backend s.mem pending 0 part.2 with
      | FramesResult.error e b2 m2 =>
          PQResult.error e { s with backend := b2, mem := m2 }
      | FramesResult.panic b2 m2 =>
          PQResult.panic { s with backend := b2, mem := m2 }
      | FramesResult.ok b2 m2 pending2 consumed =>
          process_chains pending2
            { backend := b2, mem := m2,
              used := s.used ++ [(dc.head_index, consumed)],
              signals := s.signals + 1 } rest

/-- `VhostUserRpmb::process_queue` (lines 242–369): `pending` is a local,
initialised to `NoResponse` on every invocation; an empty batch returns
`Ok(true)` immediately. -/
def process_queue (requests : List DescChain) (s : QState) : PQResult :=
  if requests.isEmpty then PQResult.ok true s
  else process_chains RequestResponse.NoResponse s requests

/-! ## src/vhu_rpmb.rs — the device struct and the VhostUserBackend trait -/

/-- `struct VhostUserRpmb { backend, event_idx: bool, mem: Option<..> }` -/
structure VhostUserRpmb where
  backend : RpmbBackend
  event_idx : Bool
  mem : Option GuestMemory

/-- `VhostUserRpmb::new(backend)` -/
def VhostUserRpmb.new (backend : RpmbBackend) : VhostUserRpmb :=
  { backend := backend, event_idx := false, mem := none }

/-- The `io::Error` an update-memory call could report
(`VhostUserBackendResult`). -/
inductive IoError where
  | other : IoError
deriving DecidableEq, Repr

/-- `VhostUserRpmb::update_memory(&mut self, mem)` (lines 422–427): the
body is `Ok(())` — the supplied mapping is dropped and `self` (including
its `mem` field) is left unchanged. -/
def VhostUserRpmb.update_memory (d : VhostUserRpmb) (_m : GuestMemory) :
    Except IoError Unit × VhostUserRpmb :=
  (Except.ok (), d)

/-- `epoll::Events` as `handle_event` inspects it: equal to `EPOLLIN` or
not. -/
inductive Events where
  | EPOLLIN : Events
  | EPOLLOUT : Events
  | EPOLLERR : Events
deriving DecidableEq, Repr

/-- The vring as `handle_event` consumes it: each EVENT_IDX loop
iteration drains the chains currently available; `rounds` lists, in
order, the batch each successive drain finds.  `enable_notification`
reports new work arrived exactly when a further round exists. -/
structure Vring where
  rounds : List (List DescChain)

/-- Result of `handle_event`: `Ok(bool)`, an `io`-wrapped `Error`, or a
panic propagated from queue processing. -/
inductive HEResult where
  | ok (more : Bool) (s : QState) : HEResult
  | error (e : Error) (s : QState) : HEResult
  | panic (s : QState) : HEResult

/-- The EVENT_IDX loop of `handle_event` (lines 452–459): disable
notifications, process the available chains, re-enable, and repeat while
`enable_notification` reports new chains arrived. -/
def handle_event_loop (s : QState) : List (List DescChain) → PQResult
  | [] => PQResult.ok true s
  | round :: rest =>
    match process_queue round s with
    | PQResult.ok _ s2 => handle_event_loop s2 rest
    | r => r

/-- `VhostUserRpmb::handle_event` (lines 429–471): reject events other
than EPOLLIN, reject device events other than 0, process the queue (in a
loop when `event_idx` is set), and return `Ok(false)` on success. -/
def VhostUserRpmb.handle_event (d : VhostUserRpmb) (device_event : Nat)
    (evset : Events) (vring : Vring) (gm : GuestMemory) : HEResult :=
  let s0 : QState :=
    { backend := d.backend, mem := gm, used := [], signals := 0 }
  if evset ≠ Events.EPOLLIN then
    HEResult.error Error.HandleEventNotEpollIn s0
  else if device_event = 0 then
    let r :=
      if d.event_idx then handle_event_loop s0 vring.rounds
      else process_queue (vring.rounds.headD []) s0
    match r with
    | PQResult.ok _ s2 => HEResult.ok false s2
    | PQResult.error e s2 => HEResult.error e s2
    | PQResult.panic s2 => HEResult.panic s2
  else
    HEResult.error Error.HandleEventUnknownEvent s0

/-! ## Observation helpers -/

/-- The final state of a successful `process_queue` run. -/
def pqState : PQResult → Option QState
  | PQResult.ok _ s => some s
  | _ => none

/-- The `add_used` log of a successful `process_queue` run. -/
def pqUsed (r : PQResult) : Option (List (Nat × Nat)) :=
  (pqState r).map QState.used

/-- The `signal_used_queue` call count of a successful run. -/
def pqSignals (r : PQResult) : Option Nat :=
  (pqState r).map QState.signals

/-- Whether a `process_queue` run panicked. -/
def pqPanicked : PQResult → Bool
  | PQResult.panic _ => true
  | _ => false

/-- The `Ok` flag of a `handle_event` run, when it completed without
error. -/
def heOkFlag : HEResult → Option Bool
  | HEResult.ok b _ => some b
  | _ => none

/-! ## Concrete inputs used to exercise the model -/

/-- A program-key request frame: `block_count = 1`, an all-zero 32-byte
key, `req_resp = REQ_PROGRAM_KEY`. -/
def pkFrame : VirtIORPMBFrame :=
  { VirtIORPMBFrame.zero with
      block_count := 1, req_resp := VIRTIO_RPMB_REQ_PROGRAM_KEY }

/-- A result-read request frame. -/
def rrFrame : VirtIORPMBFrame :=
  { VirtIORPMBFrame.zero with req_resp := VIRTIO_RPMB_REQ_RESULT_READ }

/-- Guest memory holding a program-key frame at address 0 and a
result-read frame everywhere else. -/
def pkRrMem : GuestMemory :=
  fun a => if a = 0 then pkFrame else rrFrame

/-- Guest memory holding a program-key frame at every address. -/
def pkOnlyMem : GuestMemory := fun _ => pkFrame

/-- Guest memory holding a result-read frame at every address. -/
def rrOnlyMem : GuestMemory := fun _ => rrFrame

/-- A freshly opened backend for a 128 KiB image: capacity 1, no key. -/
def rpmbBackend0 : RpmbBackend :=
  { capacity := 1, state := RpmbMutableState.new }

/-- `rpmbBackend0` after programming the all-zero 32-byte key. -/
def pkBackend0 : RpmbBackend :=
  { capacity := 1
    state := { write_count := 0, read_count := 0
               key := Key.Programmed (List.replicate RPMB_KEY_MAC_SIZE 0) } }

/-- Chain 0: a readable program-key frame at address 0 plus a writable
response buffer at address 9. -/
def pkChain1 : DescChain :=
  { head_index := 0
    buffers := [⟨0, frameSize, false⟩, ⟨9, frameSize, true⟩] }

/-- Chain 1: a readable result-read frame at address 1 plus a writable
response buffer at address 9. -/
def rrChain1 : DescChain :=
  { head_index := 1
    buffers := [⟨1, frameSize, false⟩, ⟨9, frameSize, true⟩] }

/-- A malformed chain: two descriptors, both readable — a program-key
frame at address 0 followed by a result-read frame at address 1, with no
writable descriptor for the response. -/
def allReadChain : DescChain :=
  { head_index := 0
    buffers := [⟨0, frameSize, false⟩, ⟨1, frameSize, false⟩] }

/-! ## Theorems -/

/-- C2: `program_key` on the backing store is write-once: from the
unset-key state the call succeeds and stores the 32-byte key; from any
programmed state every call, for every key value, fails and leaves the
whole backing-store state (capacity, counters, stored key) unchanged. -/
theorem backend_program_key_write_once
    (cap wc rc : Nat) (k k0 k2 : List Nat) :
    RpmbBackend.program_key
        { capacity := cap
          state := { write_count := wc, read_count := rc, key := Key.Empty } } k
      = (Except.ok (),
         { capacity := cap
           state := { write_count := wc, read_count := rc
                      key := Key.Programmed k } })
    ∧ RpmbBackend.program_key
        { capacity := cap
          state := { write_count := wc, read_count := rc
                     key := Key.Programmed k0 } } k2
      = (Except.error KeyError.ProgramFailed,
         { capacity := cap
           state := { write_count := wc, read_count := rc
                      key := Key.Programmed k0 } }) :=
  ⟨rfl, rfl⟩

/-- C5: opening a backing file of length `L` always succeeds, with
capacity `min L 16MiB / 128KiB`, which is at most 128; and the capacity
is immutable afterwards — the only state-mutating backend operation,
`program_key`, preserves it. -/
theorem backend_new_capacity (L : Nat) :
    RpmbBackend.new L
      = Except.ok
          { capacity := min L MAX_RPMB_SIZE / UNIT_128KB
            state := RpmbMutableState.new }
    ∧ min L MAX_RPMB_SIZE / UNIT_128KB ≤ 128
    ∧ (∀ (b : RpmbBackend) (k : List Nat),
        ((b.program_key k).2).capacity = b.capacity) := by
  have hclamp : (if L > MAX_RPMB_SIZE then MAX_RPMB_SIZE else L)
      = min L MAX_RPMB_SIZE := by
    rcases le_or_lt L MAX_RPMB_SIZE with h | h
    · simp [Nat.min_eq_left h, Nat.not_lt.mpr h]
    · simp [Nat.min_eq_right (le_of_lt h), h]
  have hmax : MAX_RPMB_SIZE / UNIT_128KB = 128 := by decide
  have hle : min L MAX_RPMB_SIZE / UNIT_128KB ≤ 128 := by
    calc min L MAX_RPMB_SIZE / UNIT_128KB
        ≤ MAX_RPMB_SIZE / UNIT_128KB :=
          Nat.div_le_div_right (Nat.min_le_right L MAX_RPMB_SIZE)
      _ = 128 := hmax
  refine ⟨?_, hle, fun b k => rfl⟩
  unfold RpmbBackend.new
  rw [hclamp]
  have hguard : ¬ (min L MAX_RPMB_SIZE / UNIT_128KB > 255) := by omega
  simp [hguard]

/-- C9: a batch whose first descriptor chain has fewer than 2 descriptors
makes queue processing report the descriptor-count error, with the whole
state — in particular the backing store's key and counters — left
untouched. -/
theorem process_queue_short_chain (dc : DescChain) (rest : List DescChain)
    (s : QState) (h : dc.buffers.length < 2) :
    process_queue (dc :: rest) s
      = PQResult.error Error.UnexpectedDescriptorCount s := by
  unfold process_queue
  simp only [List.isEmpty_cons, Bool.false_eq_true, if_false]
  unfold process_chains
  simp [h]

/-- C9 witness: a single chain of one readable descriptor. -/
theorem process_queue_short_chain_witness :
    process_queue [⟨0, [⟨0, frameSize, false⟩]⟩]
        ⟨rpmbBackend0, rrOnlyMem, [], 0⟩
      = PQResult.error Error.UnexpectedDescriptorCount
          ⟨rpmbBackend0, rrOnlyMem, [], 0⟩ :=
  process_queue_short_chain _ _ _ (by decide)

/-- C10: whenever `handle_event` completes without error it returns
`false` — it never reports that more work may be pending, for every
device state, event, vring content and guest memory. -/
theorem handle_event_never_reports_more_work (d : VhostUserRpmb)
    (device_event : Nat) (evset : Events) (vring : Vring)
    (gm : GuestMemory) :
    heOkFlag (d.handle_event device_event evset vring gm) ≠ some true := by
  unfold VhostUserRpmb.handle_event
  split
  · simp [heOkFlag]
  · split
    · split <;> (dsimp only; split <;> simp [heOkFlag])
    · simp [heOkFlag]

/-- C8 counterexample: `update_memory` does not store the supplied
mapping — on a device whose stored view is `none`, the view after the
call is still `none`, not the argument. -/
theorem update_memory_not_stored :
    ((VhostUserRpmb.update_memory (VhostUserRpmb.new rpmbBackend0)
        rrOnlyMem).2).mem
      ≠ some rrOnlyMem := by
  simp [VhostUserRpmb.update_memory, VhostUserRpmb.new]

/-- C8 amended: `update_memory` accepts the mapping and reports success
but leaves the device — including its stored memory view — unchanged;
the engine reads guest memory through each descriptor chain's own memory
handle instead of a stored view. -/
theorem update_memory_leaves_device_unchanged (d : VhostUserRpmb)
    (m : GuestMemory) :
    d.update_memory m = (Except.ok (), d) :=
  rfl

/-- C3: processing a readable REQ_PROGRAM_KEY frame: when
`block_count ≠ 1` the result is RES_GENERAL_FAILURE and the backing
store is untouched; when `block_count = 1` the backend's `program_key`
is attempted, success (unset key) giving RES_OK and failure (programmed
key) giving RES_WRITE_FAILURE; in every case the pending slot becomes
`PendingResponse RESP_PROGRAM_KEY result`, guest memory is not written,
and 0 bytes are consumed for the frame. -/
theorem program_key_request_dispatch (frame : VirtIORPMBFrame)
    (hreq : frame.req_resp = VIRTIO_RPMB_REQ_PROGRAM_KEY)
    (backend : RpmbBackend) (gm : GuestMemory) (a : Nat)
    (hmem : gm a = frame) (writeable : List Descriptor)
    (pending : RequestResponse) :
    process_frames writeable backend gm pending 0 [⟨a, frameSize, false⟩]
      = FramesResult.ok
          (if frame.block_count ≠ 1 then backend
           else (backend.program_key frame.key_mac).2)
          gm
          (RequestResponse.PendingResponse VIRTIO_RPMB_RESP_PROGRAM_KEY
            (if frame.block_count ≠ 1 then VIRTIO_RPMB_RES_GENERAL_FAILURE
             else match backend.state.key with
                  | Key.Empty => VIRTIO_RPMB_RES_OK
                  | Key.Programmed _ => VIRTIO_RPMB_RES_WRITE_FAILURE))
          0 := by
  by_cases hbc : frame.block_count = 1
  · rcases hkey : backend.state.key with _ | k0 <;>
      simp [process_frames, hmem, hreq, VhostUserRpmb.program_key, hbc,
        RpmbBackend.program_key, RpmbMutableState.program_key, hkey,
        VIRTIO_RPMB_REQ_PROGRAM_KEY, VIRTIO_RPMB_REQ_RESULT_READ]
  · simp [process_frames, hmem, hreq, VhostUserRpmb.program_key, hbc,
      VIRTIO_RPMB_REQ_PROGRAM_KEY, VIRTIO_RPMB_REQ_RESULT_READ]

/-- C3 witness: a program-key frame with `block_count = 1` against a
fresh backend programs the key, leaves memory unwritten, consumes 0
bytes, and parks `PendingResponse RESP_PROGRAM_KEY RES_OK`. -/
theorem program_key_request_dispatch_witness :
    process_frames [] rpmbBackend0 pkOnlyMem RequestResponse.NoResponse 0
        [⟨0, frameSize, false⟩]
      = FramesResult.ok pkBackend0 pkOnlyMem
          (RequestResponse.PendingResponse VIRTIO_RPMB_RESP_PROGRAM_KEY
            VIRTIO_RPMB_RES_OK)
          0 :=
  program_key_request_dispatch pkFrame rfl rpmbBackend0 pkOnlyMem 0 rfl []
    RequestResponse.NoResponse

/-- C4: processing a readable REQ_RESULT_READ frame: with a pending
response `{r, c}` the slot resets to `NoResponse` and `build_result(r,c)`
is written to the first writable descriptor with 512 bytes consumed;
with no pending response nothing is written and 0 bytes are consumed
— and a frame is exactly 512 bytes. -/
theorem result_read_request_dispatch (frame : VirtIORPMBFrame)
    (hreq : frame.req_resp = VIRTIO_RPMB_REQ_RESULT_READ)
    (backend : RpmbBackend) (gm : GuestMemory) (a : Nat)
    (hmem : gm a = frame) (r c : Nat) (w : Descriptor)
    (ws writeable : List Descriptor) :
    (process_frames (w :: ws) backend gm
        (RequestResponse.PendingResponse r c) 0 [⟨a, frameSize, false⟩]
      = FramesResult.ok backend
          (write_obj gm (VirtIORPMBFrame.mk_result r c) w.addr)
          RequestResponse.NoResponse frameSize)
    ∧ (process_frames writeable backend gm RequestResponse.NoResponse 0
        [⟨a, frameSize, false⟩]
      = FramesResult.ok backend gm RequestResponse.NoResponse 0)
    ∧ frameSize = 512 := by
  refine ⟨?_, ?_, by decide⟩ <;>
    simp [process_frames, hmem, hreq, VIRTIO_RPMB_REQ_PROGRAM_KEY,
      VIRTIO_RPMB_REQ_RESULT_READ]

/-- C4 witness: with `PendingResponse RESP_PROGRAM_KEY RES_OK` parked, a
result-read frame writes the result frame to the writable descriptor at
address 9 and consumes 512 bytes; with nothing parked it writes nothing
and consumes 0. -/
theorem result_read_request_dispatch_witness :
    (process_frames [⟨9, frameSize, true⟩] rpmbBackend0 rrOnlyMem
        (RequestResponse.PendingResponse VIRTIO_RPMB_RESP_PROGRAM_KEY
          VIRTIO_RPMB_RES_OK) 0 [⟨0, frameSize, false⟩]
      = FramesResult.ok rpmbBackend0
          (write_obj rrOnlyMem
            (VirtIORPMBFrame.mk_result VIRTIO_RPMB_RESP_PROGRAM_KEY
              VIRTIO_RPMB_RES_OK) 9)
          RequestResponse.NoResponse frameSize)
    ∧ (process_frames [⟨9, frameSize, true⟩] rpmbBackend0 rrOnlyMem
        RequestResponse.NoResponse 0 [⟨0, frameSize, false⟩]
      = FramesResult.ok rpmbBackend0 rrOnlyMem RequestResponse.NoResponse 0)
    ∧ frameSize = 512 :=
  result_read_request_dispatch rrFrame rfl rpmbBackend0 rrOnlyMem 0 rfl
    VIRTIO_RPMB_RESP_PROGRAM_KEY VIRTIO_RPMB_RES_OK ⟨9, frameSize, true⟩ []
    [⟨9, frameSize, true⟩]

/-- C1 counterexample: the pending response does not survive from one
queue-processing invocation to the next.  A first invocation handles a
program-key chain (producing a pending response; 0 used bytes, key
programmed); a second invocation, started from exactly the state the
first produced, handles a result-read chain and finds nothing pending:
no response frame is written, the chain is used with 0 bytes. -/
theorem pending_lost_across_invocations :
    process_queue [pkChain1] ⟨rpmbBackend0, pkRrMem, [], 0⟩
      = PQResult.ok true ⟨pkBackend0, pkRrMem, [(0, 0)], 1⟩
    ∧ process_queue [rrChain1] ⟨pkBackend0, pkRrMem, [], 0⟩
      = PQResult.ok true ⟨pkBackend0, pkRrMem, [(1, 0)], 1⟩ :=
  ⟨rfl, rfl⟩

/-- C1 amended: the pending-response slot is scoped to one
queue-processing invocation: within a single invocation it is threaded
across chains — the same program-key chain followed by the same
result-read chain submitted in one batch does deliver the parked
`build_result(RESP_PROGRAM_KEY, RES_OK)` — but every invocation starts
the slot at `NoResponse`, so an unconsumed pending response does not
survive to the next invocation. -/
theorem pending_scoped_to_invocation :
    process_queue [pkChain1, rrChain1] ⟨rpmbBackend0, pkRrMem, [], 0⟩
      = PQResult.ok true
          ⟨pkBackend0,
           write_obj pkRrMem
             (VirtIORPMBFrame.mk_result VIRTIO_RPMB_RESP_PROGRAM_KEY
               VIRTIO_RPMB_RES_OK) 9,
           [(0, 0), (1, frameSize)], 2⟩
    ∧ (∀ (dc : DescChain) (rest : List DescChain) (s : QState),
        process_queue (dc :: rest) s
          = process_chains RequestResponse.NoResponse s (dc :: rest)) :=
  ⟨rfl, fun _ _ _ => rfl⟩

/-- C6: a chain of two readable descriptors (program-key then
result-read) with no writable descriptor drives queue processing into
the unchecked `writeable[0]` indexing: the model reaches the `panic`
outcome — the process aborts instead of returning an error value. -/
theorem all_readable_response_panics :
    pqPanicked (process_queue [allReadChain] ⟨rpmbBackend0, pkRrMem, [], 0⟩)
      = true :=
  rfl

/-- C7: the used-queue signal is issued once per chain, not once per
batch: a batch of two well-formed chains (each a readable frame with an
unhandled request code plus a writable buffer) completes with two
`signal_used_queue` calls. -/
theorem signal_once_per_chain :
    pqSignals (process_queue
        [⟨0, [⟨0, frameSize, false⟩, ⟨8, frameSize, true⟩]⟩,
         ⟨1, [⟨2, frameSize, false⟩, ⟨9, frameSize, true⟩]⟩]
        ⟨rpmbBackend0, (fun _ => VirtIORPMBFrame.zero), [], 0⟩)
      = some 2 :=
  rfl
